import Mathlib

set_option autoImplicit false

namespace DataScraping

/-!
Shallow embedding of the OAuth/vault/collection core of the `datascraping`
backend (`src/backend/app`).  Datetime values are modelled as `Nat` seconds;
MongoDB collections are modelled as Lean lists of documents, with `find_one`
modelled as `List.find?` (first match) and a save of a fetched document
modelled as an in-place update of that occurrence.
-/

/-- The `PlatformType` str-enum from `app/models/social_auth_models.py`. -/
inductive PlatformType where
  | facebook
  | instagram
  | reddit
  | twitter
deriving DecidableEq, Repr

/-- The string value of a `PlatformType` member. -/
def PlatformType.value : PlatformType → String
  | .facebook => "facebook"
  | .instagram => "instagram"
  | .reddit => "reddit"
  | .twitter => "twitter"

/-- `PlatformType(s)` conversion; `none` models the `ValueError` Python raises
on an unknown value. -/
def PlatformType.ofString? (s : String) : Option PlatformType :=
  if s = "facebook" then some .facebook
  else if s = "instagram" then some .instagram
  else if s = "reddit" then some .reddit
  else if s = "twitter" then some .twitter
  else none

/-- `str.lower()` restricted to ASCII case folding (platform names are
ASCII), as a total function on the character list. -/
def strLower (s : String) : String := ⟨s.data.map Char.toLower⟩

/-- `platform_mapping.get(platform, platform.lower())` with the mapping
`{"google": "youtube"}`, as used by `_store_oauth_state`,
`_verify_oauth_state` (oauth_service.py) and `disconnect_platform`
(endpoints/oauth.py). -/
def dbPlatformName (platform : String) : String :=
  if platform = "google" then "youtube" else strLower platform

/-- One `OAuthState` document (`app/models/social_auth_models.py`), with
`datetime` fields as `Nat` seconds. -/
structure OAuthState where
  state : String
  user_id : String
  platform : PlatformType
  code_verifier : Option String
  created_at : Nat
  expires_at : Nat
  is_used : Bool
deriving DecidableEq, Repr

/-- The filter of the `OAuthState.find_one` query inside
`OAuthService._verify_oauth_state`: state match, platform match,
`is_used == False` and `expires_at > datetime.utcnow()`. -/
def stateMatches (s : String) (p : PlatformType) (now : Nat) (r : OAuthState) : Bool :=
  r.state == s && r.platform == p && r.is_used == false && decide (now < r.expires_at)

/-- The dict `_verify_oauth_state` returns on success: the bound
`user_id`, `platform` (its enum `.value`) and `code_verifier`. -/
structure VerifyData where
  user_id : String
  platform : String
  code_verifier : Option String
deriving DecidableEq, Repr

/-- `oauth_state.is_used = True; await oauth_state.save()` applied to the
document returned by `find_one`: flip `is_used` on the first matching
record, leaving everything else untouched. -/
def markUsedFirst (s : String) (p : PlatformType) (now : Nat) : List OAuthState → List OAuthState
  | [] => []
  | r :: rest =>
      if stateMatches s p now r then { r with is_used := true } :: rest
      else r :: markUsedFirst s p now rest

/-- `OAuthService._verify_oauth_state` (oauth_service.py lines 389-415):
looks up an unused, unexpired state for the platform; on a hit it marks the
record used and returns the bound data, otherwise it returns `None` and
leaves the store unchanged. -/
def verify_oauth_state (db : List OAuthState) (s : String) (p : PlatformType) (now : Nat) :
    Option VerifyData × List OAuthState :=
  match db.find? (stateMatches s p now) with
  | none => (none, db)
  | some r => (some ⟨r.user_id, r.platform.value, r.code_verifier⟩, markUsedFirst s p now db)

/-- `OAuthService._store_oauth_state` (oauth_service.py lines 369-387):
persists a fresh state record with `expires_at = now + timedelta(minutes=10)`
and the model default `is_used = False`. -/
def store_oauth_state (db : List OAuthState) (state user_id : String) (p : PlatformType)
    (code_verifier : Option String) (now : Nat) : List OAuthState :=
  db ++ [{ state := state, user_id := user_id, platform := p, code_verifier := code_verifier,
           created_at := now, expires_at := now + 10 * 60, is_used := false }]

/-- All records bound to token `s` have been consumed. -/
def consumed (s : String) (db : List OAuthState) : Prop :=
  ∀ r ∈ db, r.state = s → r.is_used = true

/-- Run a sequence of verification calls `(token, platform, time)`,
threading the state store through. -/
def runVerifies : List OAuthState → List (String × PlatformType × Nat) → List OAuthState
  | db, [] => db
  | db, (s, p, n) :: rest => runVerifies (verify_oauth_state db s p n).2 rest

theorem stateMatches_iff (s : String) (p : PlatformType) (now : Nat) (r : OAuthState) :
    stateMatches s p now r = true ↔
      r.state = s ∧ r.platform = p ∧ r.is_used = false ∧ now < r.expires_at := by
  simp [stateMatches, and_assoc]

theorem consumed_markUsedFirst (s s' : String) (p : PlatformType) (n : Nat) :
    ∀ db : List OAuthState, consumed s db → consumed s (markUsedFirst s' p n db)
  | [], h => h
  | r :: rest, h => by
    have hr : r.state = s → r.is_used = true := fun hs => h r (List.mem_cons_self r rest) hs
    have hrest : consumed s rest := fun x hx hs => h x (List.mem_cons_of_mem r hx) hs
    have ihrest := consumed_markUsedFirst s s' p n rest hrest
    unfold markUsedFirst
    split
    · intro x hx hs
      rcases List.mem_cons.mp hx with h1 | h2
      · subst h1; rfl
      · exact hrest x h2 hs
    · intro x hx hs
      rcases List.mem_cons.mp hx with h1 | h2
      · subst h1; exact hr hs
      · exact ihrest x h2 hs

theorem verify_of_consumed (s : String) (p : PlatformType) (n : Nat) (db : List OAuthState)
    (h : consumed s db) : verify_oauth_state db s p n = (none, db) := by
  have hfind : db.find? (stateMatches s p n) = none := by
    rw [List.find?_eq_none]
    intro r hr hmatch
    rw [stateMatches_iff] at hmatch
    obtain ⟨h1, _, h3, _⟩ := hmatch
    have := h r hr h1
    rw [h3] at this
    exact Bool.false_ne_true this
  simp [verify_oauth_state, hfind]

theorem consumed_verify (s s' : String) (p : PlatformType) (n : Nat) (db : List OAuthState)
    (h : consumed s db) : consumed s (verify_oauth_state db s' p n).2 := by
  cases hf : db.find? (stateMatches s' p n) with
  | none => simpa [verify_oauth_state, hf] using h
  | some r => simpa [verify_oauth_state, hf] using consumed_markUsedFirst s s' p n db h

theorem consumed_runVerifies (s : String) :
    ∀ (calls : List (String × PlatformType × Nat)) (db : List OAuthState),
      consumed s db → consumed s (runVerifies db calls)
  | [], _, h => h
  | (s', p, n) :: rest, db, h =>
      consumed_runVerifies s rest _ (consumed_verify s s' p n db h)

theorem find?_markUsedFirst_split (s : String) (p : PlatformType) (n : Nat) :
    ∀ (db : List OAuthState) (r : OAuthState),
      db.find? (stateMatches s p n) = some r →
      ∃ l₁ l₂, db = l₁ ++ r :: l₂ ∧
        markUsedFirst s p n db = l₁ ++ { r with is_used := true } :: l₂ ∧
        ∀ x ∈ l₁, stateMatches s p n x = false
  | [], r, h => by simp at h
  | a :: rest, r, h => by
    by_cases ha : stateMatches s p n a = true
    · have har : a = r := by
        rw [List.find?_cons_of_pos _ ha] at h
        exact Option.some.inj h
      subst har
      exact ⟨[], rest, rfl, by simp [markUsedFirst, ha], by simp⟩
    · have hfr : rest.find? (stateMatches s p n) = some r := by
        rwa [List.find?_cons_of_neg _ ha] at h
      obtain ⟨l₁, l₂, hdb, hmark, hnone⟩ := find?_markUsedFirst_split s p n rest r hfr
      have ha' : stateMatches s p n a = false := by simpa using ha
      refine ⟨a :: l₁, l₂, by rw [List.cons_append, ← hdb], ?_, ?_⟩
      · simp [markUsedFirst, ha', hmark]
      · intro x hx
        rcases List.mem_cons.mp hx with h1 | h2
        · subst h1; exact ha'
        · exact hnone x h2

/-- C1: for every issued OAuth state token (at most one stored record carries
the token), a successful `_verify_oauth_state` call requires an existing
record with `is_used = false`, `expires_at` strictly in the future and a
matching platform; it flips exactly that record's `is_used` to `true` and
returns the bound `{user_id, platform, code_verifier}`; every subsequent
call with the same token — through any interleaving of further calls —
returns absent, and a failing call leaves the store unchanged. -/
theorem c1_oauth_state_single_use
    (db : List OAuthState) (s : String) (p : PlatformType) (now : Nat)
    (uniq : db.countP (fun r => r.state == s) ≤ 1) :
    (∀ d db', verify_oauth_state db s p now = (some d, db') →
       (∃ r l₁ l₂, db = l₁ ++ r :: l₂ ∧
          r.state = s ∧ r.platform = p ∧ r.is_used = false ∧ now < r.expires_at ∧
          d = ⟨r.user_id, r.platform.value, r.code_verifier⟩ ∧
          db' = l₁ ++ { r with is_used := true } :: l₂) ∧
       ∀ (calls : List (String × PlatformType × Nat)) (p' : PlatformType) (n' : Nat),
         verify_oauth_state (runVerifies db' calls) s p' n' =
           (none, runVerifies db' calls)) ∧
    ((verify_oauth_state db s p now).1 = none →
       (verify_oauth_state db s p now).2 = db) := by
  constructor
  · intro d db' h
    cases hf : db.find? (stateMatches s p now) with
    | none => simp [verify_oauth_state, hf] at h
    | some r =>
      simp only [verify_oauth_state, hf, Prod.mk.injEq, Option.some.injEq] at h
      obtain ⟨hd, hdb'⟩ := h
      obtain ⟨l₁, l₂, hdb, hmark, _⟩ := find?_markUsedFirst_split s p now db r hf
      have hpred := List.find?_some hf
      rw [stateMatches_iff] at hpred
      obtain ⟨hs, hp, hu, he⟩ := hpred
      have hdb'eq : db' = l₁ ++ { r with is_used := true } :: l₂ := by
        rw [← hdb']; exact hmark
      have hcount : l₁.countP (fun x => x.state == s) = 0 ∧
          l₂.countP (fun x => x.state == s) = 0 := by
        rw [hdb] at uniq
        simp [List.countP_append, List.countP_cons, hs] at uniq
        omega
      have hcons : consumed s db' := by
        rw [hdb'eq]
        intro x hx hxs
        rcases List.mem_append.mp hx with hx1 | hx2
        · exfalso
          have := List.countP_eq_zero.mp hcount.1 x hx1
          simp [hxs] at this
        · rcases List.mem_cons.mp hx2 with h1 | h2
          · subst h1; rfl
          · exfalso
            have := List.countP_eq_zero.mp hcount.2 x h2
            simp [hxs] at this
      refine ⟨⟨r, l₁, l₂, hdb, hs, hp, hu, he, hd.symm, hdb'eq⟩, ?_⟩
      intro calls p' n'
      exact verify_of_consumed s p' n' _ (consumed_runVerifies s calls db' hcons)
  · intro hnone
    cases hf : db.find? (stateMatches s p now) with
    | none => simp [verify_oauth_state, hf]
    | some r => simp [verify_oauth_state, hf] at hnone

/-- Witness for C1 at a concrete store holding one freshly issued state. -/
theorem c1_witness :
    (∀ d db', verify_oauth_state
        [{ state := "tok", user_id := "u1", platform := .twitter,
           code_verifier := some "v1", created_at := 0, expires_at := 600,
           is_used := false }] "tok" .twitter 0 = (some d, db') →
       (∃ r l₁ l₂,
          [{ state := "tok", user_id := "u1", platform := .twitter,
             code_verifier := some "v1", created_at := 0, expires_at := 600,
             is_used := false }] = l₁ ++ r :: l₂ ∧
          r.state = "tok" ∧ r.platform = .twitter ∧ r.is_used = false ∧ 0 < r.expires_at ∧
          d = ⟨r.user_id, r.platform.value, r.code_verifier⟩ ∧
          db' = l₁ ++ { r with is_used := true } :: l₂) ∧
       ∀ (calls : List (String × PlatformType × Nat)) (p' : PlatformType) (n' : Nat),
         verify_oauth_state (runVerifies db' calls) "tok" p' n' =
           (none, runVerifies db' calls)) ∧
    ((verify_oauth_state
        [{ state := "tok", user_id := "u1", platform := .twitter,
           code_verifier := some "v1", created_at := 0, expires_at := 600,
           is_used := false }] "tok" .twitter 0).1 = none →
       (verify_oauth_state
        [{ state := "tok", user_id := "u1", platform := .twitter,
           code_verifier := some "v1", created_at := 0, expires_at := 600,
           is_used := false }] "tok" .twitter 0).2 =
        [{ state := "tok", user_id := "u1", platform := .twitter,
           code_verifier := some "v1", created_at := 0, expires_at := 600,
           is_used := false }]) :=
  c1_oauth_state_single_use
    [{ state := "tok", user_id := "u1", platform := .twitter,
       code_verifier := some "v1", created_at := 0, expires_at := 600,
       is_used := false }] "tok" .twitter 0 (by decide)

/-- C7: `_store_oauth_state` persists the issued state with
`expires_at = now + 600` seconds (exactly 10 minutes) and `is_used = false`,
and any verification of a token whose stored records are all expired at the
check time returns absent with no change to the store. -/
theorem c7_state_issue_and_expiry
    (db : List OAuthState) (state user_id : String) (p : PlatformType)
    (cv : Option String) (now : Nat)
    (db₂ : List OAuthState) (s₂ : String) (p₂ : PlatformType) (t : Nat)
    (hexp : ∀ r ∈ db₂, r.state = s₂ → r.expires_at ≤ t) :
    store_oauth_state db state user_id p cv now =
      db ++ [{ state := state, user_id := user_id, platform := p, code_verifier := cv,
               created_at := now, expires_at := now + 600, is_used := false }] ∧
    verify_oauth_state db₂ s₂ p₂ t = (none, db₂) := by
  constructor
  · simp [store_oauth_state]
  · have hfind : db₂.find? (stateMatches s₂ p₂ t) = none := by
      rw [List.find?_eq_none]
      intro r hr hmatch
      rw [stateMatches_iff] at hmatch
      obtain ⟨h1, _, _, h4⟩ := hmatch
      exact absurd h4 (Nat.not_lt.mpr (hexp r hr h1))
    simp [verify_oauth_state, hfind]

/-- Witness for C7: a state issued at time 0 (so `expires_at = 600`) fails
verification at time 600, even though it was never consumed. -/
theorem c7_witness :
    store_oauth_state [] "tok7" "u7" .reddit none 0 =
      [] ++ [{ state := "tok7", user_id := "u7", platform := .reddit, code_verifier := none,
               created_at := 0, expires_at := 0 + 600, is_used := false }] ∧
    verify_oauth_state
      [{ state := "tok7", user_id := "u7", platform := .reddit, code_verifier := none,
         created_at := 0, expires_at := 600, is_used := false }] "tok7" .reddit 600 =
      (none,
       [{ state := "tok7", user_id := "u7", platform := .reddit, code_verifier := none,
          created_at := 0, expires_at := 600, is_used := false }]) :=
  c7_state_issue_and_expiry [] "tok7" "u7" .reddit none 0
    [{ state := "tok7", user_id := "u7", platform := .reddit, code_verifier := none,
       created_at := 0, expires_at := 600, is_used := false }] "tok7" .reddit 600
    (by decide)

/-! ## Base64 and PKCE (`_generate_code_challenge`) -/

/-- The 62 shared leading characters of the base64 alphabets:
uppercase letters, lowercase letters, digits. -/
def b64AlphaCommon : List Char :=
  (List.range 26).map (fun i => Char.ofNat (65 + i)) ++
  (List.range 26).map (fun i => Char.ofNat (97 + i)) ++
  (List.range 10).map (fun i => Char.ofNat (48 + i))

/-- The URL-safe base64 alphabet used by `base64.urlsafe_b64encode`. -/
def urlsafeAlphabet : List Char := b64AlphaCommon ++ ['-', '_']

/-- The standard base64 alphabet used by `base64.b64encode`. -/
def stdAlphabet : List Char := b64AlphaCommon ++ ['+', '/']

/-- Character of a 6-bit group in the given alphabet. -/
def b64charOf (alpha : List Char) (n : Nat) : Char := alpha.getD (n % 64) 'A'

/-- Base64 encoding (with `=` padding) of a byte list over a given alphabet,
as produced by Python's `base64` module. -/
def b64EncodeWith (alpha : List Char) : List Nat → List Char
  | [] => []
  | [b1] => [b64charOf alpha (b1 / 4), b64charOf alpha (b1 % 4 * 16), '=', '=']
  | [b1, b2] => [b64charOf alpha (b1 / 4), b64charOf alpha (b1 % 4 * 16 + b2 / 16),
                 b64charOf alpha (b2 % 16 * 4), '=']
  | b1 :: b2 :: b3 :: rest =>
      b64charOf alpha (b1 / 4) :: b64charOf alpha (b1 % 4 * 16 + b2 / 16) ::
      b64charOf alpha (b2 % 16 * 4 + b3 / 64) :: b64charOf alpha (b3 % 64) ::
      b64EncodeWith alpha rest

/-- Base64 encoding with the padding characters simply absent, following the
spec's words "URL-safe base64 (no padding)". -/
def b64NoPadWith (alpha : List Char) : List Nat → List Char
  | [] => []
  | [b1] => [b64charOf alpha (b1 / 4), b64charOf alpha (b1 % 4 * 16)]
  | [b1, b2] => [b64charOf alpha (b1 / 4), b64charOf alpha (b1 % 4 * 16 + b2 / 16),
                 b64charOf alpha (b2 % 16 * 4)]
  | b1 :: b2 :: b3 :: rest =>
      b64charOf alpha (b1 / 4) :: b64charOf alpha (b1 % 4 * 16 + b2 / 16) ::
      b64charOf alpha (b2 % 16 * 4 + b3 / 64) :: b64charOf alpha (b3 % 64) ::
      b64NoPadWith alpha rest

/-- Python's `str.rstrip("=")`: remove the trailing run of `=` characters. -/
def rstripEqChar (l : List Char) : List Char :=
  (l.reverse.dropWhile (fun c => c == '=')).reverse

theorem urlsafeAlphabet_ne_eq : ∀ m < 64, urlsafeAlphabet.getD m 'A' ≠ '=' := by decide

theorem b64charOf_urlsafe_ne (n : Nat) : b64charOf urlsafeAlphabet n ≠ '=' :=
  urlsafeAlphabet_ne_eq (n % 64) (Nat.mod_lt _ (by norm_num))

theorem dropWhile_append_all {α : Type} (p : α → Bool) :
    ∀ as bs : List α, as.dropWhile p = [] → (as ++ bs).dropWhile p = bs.dropWhile p
  | [], _, _ => rfl
  | a :: as, bs, h => by
    by_cases hp : p a = true
    · rw [List.dropWhile_cons_of_pos hp] at h
      rw [List.cons_append, List.dropWhile_cons_of_pos hp]
      exact dropWhile_append_all p as bs h
    · rw [List.dropWhile_cons_of_neg hp] at h
      simp at h

theorem dropWhile_append_rest {α : Type} (p : α → Bool) :
    ∀ as bs : List α, as.dropWhile p ≠ [] → (as ++ bs).dropWhile p = as.dropWhile p ++ bs
  | [], _, h => absurd rfl h
  | a :: as, bs, h => by
    by_cases hp : p a = true
    · rw [List.dropWhile_cons_of_pos hp] at h
      rw [List.cons_append, List.dropWhile_cons_of_pos hp, List.dropWhile_cons_of_pos hp]
      exact dropWhile_append_rest p as bs h
    · rw [List.dropWhile_cons_of_neg hp]
      rw [List.cons_append, List.dropWhile_cons_of_neg hp]

theorem dropWhile_of_all_ne (l : List Char) (h : ∀ c ∈ l, c ≠ '=') :
    l.dropWhile (fun c => c == '=') = l := by
  cases l with
  | nil => rfl
  | cons a t =>
    exact List.dropWhile_cons_of_neg (by simpa using h a (List.mem_cons_self a t))

theorem rstrip_append (xs ys : List Char) (hxs : ∀ c ∈ xs, c ≠ '=') :
    rstripEqChar (xs ++ ys) = xs ++ rstripEqChar ys := by
  unfold rstripEqChar
  rw [List.reverse_append]
  by_cases h : ys.reverse.dropWhile (fun c => c == '=') = []
  · rw [dropWhile_append_all _ _ _ h, h, List.reverse_nil, List.append_nil]
    rw [dropWhile_of_all_ne _ (fun c hc => hxs c (List.mem_reverse.mp hc)),
      List.reverse_reverse]
  · rw [dropWhile_append_rest _ _ _ h, List.reverse_append, List.reverse_reverse]

theorem rstrip_b64EncodeWith_urlsafe :
    ∀ bytes : List Nat,
      rstripEqChar (b64EncodeWith urlsafeAlphabet bytes) = b64NoPadWith urlsafeAlphabet bytes
  | [] => rfl
  | [b1] => by
    have h2 : (b64charOf urlsafeAlphabet (b1 % 4 * 16) == '=') = false := by
      simpa using b64charOf_urlsafe_ne (b1 % 4 * 16)
    simp [b64EncodeWith, b64NoPadWith, rstripEqChar, List.dropWhile, h2]
  | [b1, b2] => by
    have h3 : (b64charOf urlsafeAlphabet (b2 % 16 * 4) == '=') = false := by
      simpa using b64charOf_urlsafe_ne (b2 % 16 * 4)
    simp [b64EncodeWith, b64NoPadWith, rstripEqChar, List.dropWhile, h3]
  | b1 :: b2 :: b3 :: rest => by
    have hne : ∀ c ∈ [b64charOf urlsafeAlphabet (b1 / 4),
        b64charOf urlsafeAlphabet (b1 % 4 * 16 + b2 / 16),
        b64charOf urlsafeAlphabet (b2 % 16 * 4 + b3 / 64),
        b64charOf urlsafeAlphabet (b3 % 64)], c ≠ '=' := by
      intro c hc
      simp only [List.mem_cons, List.not_mem_nil, or_false] at hc
      rcases hc with h | h | h | h <;> (subst h; exact b64charOf_urlsafe_ne _)
    have ih := rstrip_b64EncodeWith_urlsafe rest
    show rstripEqChar ([b64charOf urlsafeAlphabet (b1 / 4),
        b64charOf urlsafeAlphabet (b1 % 4 * 16 + b2 / 16),
        b64charOf urlsafeAlphabet (b2 % 16 * 4 + b3 / 64),
        b64charOf urlsafeAlphabet (b3 % 64)] ++ b64EncodeWith urlsafeAlphabet rest) = _
    rw [rstrip_append _ _ hne, ih]
    rfl

/-- `OAuthService._generate_code_challenge` (oauth_service.py lines 417-428):
SHA-256 hash of the UTF-8 encoded verifier, URL-safe base64 encoded, then
`.rstrip("=")`.  `str.encode("utf-8")` and `hashlib.sha256(...).digest()` are
external library functions and enter as abstract parameters (byte lists are
`List Nat`). -/
def generate_code_challenge (utf8 : String → List Nat) (sha256 : List Nat → List Nat)
    (code_verifier : String) : List Char :=
  rstripEqChar (b64EncodeWith urlsafeAlphabet (sha256 (utf8 code_verifier)))

/-- Reference definition following the spec's words: code challenge derived
via "SHA-256 + URL-safe base64 (no padding)". -/
def specCodeChallenge (utf8 : String → List Nat) (sha256 : List Nat → List Nat)
    (code_verifier : String) : List Char :=
  b64NoPadWith urlsafeAlphabet (sha256 (utf8 code_verifier))

/-- The Twitter branch of `OAuthService.get_authorization_url`
(oauth_service.py lines 44-95): stores an OAuth state binding the generated
PKCE verifier, and builds the authorization parameters including
`code_challenge_method=S256` and the derived `code_challenge`. -/
def get_authorization_url_twitter (db : List OAuthState)
    (user_id state code_verifier client_id redirect_uri scope : String)
    (utf8 : String → List Nat) (sha256 : List Nat → List Nat) (now : Nat) :
    List OAuthState × List (String × String) :=
  (store_oauth_state db state user_id .twitter (some code_verifier) now,
   [("client_id", client_id), ("redirect_uri", redirect_uri), ("scope", scope),
    ("state", state), ("response_type", "code"),
    ("code_challenge_method", "S256"),
    ("code_challenge", (generate_code_challenge utf8 sha256 code_verifier).asString)])

/-- C8: for every code verifier, `_generate_code_challenge` equals the
reference definition (URL-safe base64 of the SHA-256 digest with padding
removed); the Twitter authorization flow binds the verifier to the issued
state and sends `code_challenge_method=S256` with that challenge. -/
theorem c8_pkce_code_challenge
    (utf8 : String → List Nat) (sha256 : List Nat → List Nat) (v : String)
    (db : List OAuthState) (user_id state client_id redirect_uri scope : String) (now : Nat) :
    generate_code_challenge utf8 sha256 v = specCodeChallenge utf8 sha256 v ∧
    (get_authorization_url_twitter db user_id state v client_id redirect_uri scope
        utf8 sha256 now).1 =
      store_oauth_state db state user_id .twitter (some v) now ∧
    ("code_challenge_method", "S256") ∈
      (get_authorization_url_twitter db user_id state v client_id redirect_uri scope
        utf8 sha256 now).2 ∧
    ("code_challenge", (specCodeChallenge utf8 sha256 v).asString) ∈
      (get_authorization_url_twitter db user_id state v client_id redirect_uri scope
        utf8 sha256 now).2 := by
  have h := rstrip_b64EncodeWith_urlsafe (sha256 (utf8 v))
  refine ⟨h, rfl, by simp [get_authorization_url_twitter], ?_⟩
  have hgen : generate_code_challenge utf8 sha256 v = specCodeChallenge utf8 sha256 v := h
  rw [← hgen]
  simp [get_authorization_url_twitter]

/-! ## Credential vault (`credential_vault_service.py`) -/

/-- The `credential_data` dict written to `data/credential_vault/{user}/{platform}.json`
by `store_credentials`; the `credentials` field holds the cipher output. -/
structure CredentialData where
  platform : String
  credentials : String
  created_at : String
  updated_at : String
  last_used : Option String
deriving DecidableEq, Repr

/-- The external primitives the vault composes: the process-wide Fernet
cipher (`encrypt` total, `decrypt` returning `none` where Fernet raises
`InvalidToken`) and the `json` module on flat string mappings. -/
structure VaultLibs where
  encrypt : String → String
  decrypt : String → Option String
  dumps : List (String × String) → String
  loads : String → Option (List (String × String))

/-- The per-user vault directory tree: an association from the file path key
`(user_id, platform)` to the stored artifact. -/
abbrev VaultFiles := List ((String × String) × CredentialData)

/-- Read of `{user}/{platform}.json`; `none` when the file does not exist. -/
def lookupFile (fs : VaultFiles) (k : String × String) : Option CredentialData :=
  (fs.find? (fun e => e.1 == k)).map (·.2)

/-- File write: overwrite the entry at the path if present, else create it. -/
def writeFile : VaultFiles → (String × String) → CredentialData → VaultFiles
  | [], k, d => [(k, d)]
  | e :: rest, k, d => if e.1 == k then (k, d) :: rest else e :: writeFile rest k d

/-- `CredentialVaultService.store_credentials` (lines 83-111): serializes the
mapping with `json.dumps`, encrypts, and writes the artifact with fresh
`created_at`/`updated_at` and `last_used = None`. -/
def store_credentials (libs : VaultLibs) (fs : VaultFiles) (user_id platform : String)
    (credentials : List (String × String)) (now : String) : Bool × VaultFiles :=
  let encrypted_creds := libs.encrypt (libs.dumps credentials)
  let credential_data : CredentialData :=
    { platform := platform, credentials := encrypted_creds,
      created_at := now, updated_at := now, last_used := none }
  (true, writeFile fs (user_id, platform) credential_data)

/-- `CredentialVaultService.get_credentials` (lines 113-139): returns `None`
when the file is missing; decrypts and deserializes otherwise, touching
`last_used` only on full success (a cipher or json exception is caught before
the file is rewritten and surfaces as `None`). -/
def get_credentials (libs : VaultLibs) (fs : VaultFiles) (user_id platform : String)
    (now : String) : Option (List (String × String)) × VaultFiles :=
  match lookupFile fs (user_id, platform) with
  | none => (none, fs)
  | some data =>
    match libs.decrypt data.credentials with
    | none => (none, fs)
    | some decrypted_creds =>
      match libs.loads decrypted_creds with
      | none => (none, fs)
      | some credentials =>
        (some credentials, writeFile fs (user_id, platform) { data with last_used := some now })

theorem lookupFile_writeFile : ∀ (fs : VaultFiles) (k : String × String) (d : CredentialData),
    lookupFile (writeFile fs k d) k = some d
  | [], k, d => by simp [writeFile, lookupFile]
  | e :: rest, k, d => by
    by_cases h : e.1 == k
    · simp [writeFile, h, lookupFile]
    · have ih := lookupFile_writeFile rest k d
      simp only [writeFile, h, if_false, lookupFile, List.find?] at ih ⊢
      exact ih

/-! Concrete JSON text of the artifact, mirroring
`json.dump(credential_data, f, indent=2)` with `ensure_ascii` escaping
(astral characters, which Python writes as surrogate pairs, are not
modelled). -/

/-- Lowercase hexadecimal digit. -/
def hexDigitChar (n : Nat) : Char :=
  Char.ofNat (if n % 16 < 10 then 48 + n % 16 else 87 + n % 16)

/-- A `\uXXXX` escape for a BMP code point. -/
def uEscape (n : Nat) : List Char :=
  ['\\', 'u', hexDigitChar (n / 4096), hexDigitChar (n / 256), hexDigitChar (n / 16),
   hexDigitChar n]

/-- Escaping of one character inside a JSON string, as Python's `json` module
does with the default `ensure_ascii=True`. -/
def jsonEscapeChar (c : Char) : List Char :=
  if c = '"' then ['\\', '"']
  else if c = '\\' then ['\\', '\\']
  else if c = '\n' then ['\\', 'n']
  else if c = '\r' then ['\\', 'r']
  else if c = '\t' then ['\\', 't']
  else if c.toNat = 8 then ['\\', 'b']
  else if c.toNat = 12 then ['\\', 'f']
  else if c.toNat < 32 ∨ c.toNat > 126 then uEscape c.toNat
  else [c]

/-- A JSON string literal. -/
def jsonString (s : String) : String :=
  "\"" ++ ((s.data.map jsonEscapeChar).flatten).asString ++ "\""

/-- `json.dumps` of a flat string mapping with the default separators. -/
def dumps_credmap (m : List (String × String)) : String :=
  "\x7b" ++ String.intercalate ", "
    (m.map (fun kv => jsonString kv.1 ++ ": " ++ jsonString kv.2)) ++ "\x7d"

/-- The artifact file text: `json.dump(credential_data, f, indent=2)`. -/
def dumps_credential_data (d : CredentialData) : String :=
  "\x7b\n  \"platform\": " ++ jsonString d.platform ++
  ",\n  \"credentials\": " ++ jsonString d.credentials ++
  ",\n  \"created_at\": " ++ jsonString d.created_at ++
  ",\n  \"updated_at\": " ++ jsonString d.updated_at ++
  ",\n  \"last_used\": " ++ (match d.last_used with | none => "null" | some s => jsonString s) ++
  "\n\x7d"

/-- Whether the second list occurs at the start of the first. -/
def startsWithList : List Char → List Char → Bool
  | _, [] => true
  | [], _ :: _ => false
  | c :: cs, d :: ds => c == d && startsWithList cs ds

/-- Whether the second list occurs as a contiguous substring of the first. -/
def containsSub : List Char → List Char → Bool
  | [], sub => sub.isEmpty
  | c :: cs, sub => startsWithList (c :: cs) sub || containsSub cs sub

/-- A concrete (toy) reversible cipher for witness instantiations of the
abstract Fernet interface: hex-encode every character's code. -/
def hexEncode (s : String) : String :=
  ((s.data.map (fun c => [hexDigitChar (c.toNat / 16), hexDigitChar c.toNat])).flatten).asString

/-- Hexadecimal value of one digit character. -/
def hexVal? (c : Char) : Option Nat :=
  (List.range 16).find? (fun n => hexDigitChar n == c)

/-- Inverse of `hexEncode`; `none` on malformed input (the cipher-error case). -/
def hexDecodeChars : List Char → Option (List Char)
  | [] => some []
  | [_] => none
  | c1 :: c2 :: rest => do
      let h ← hexVal? c1
      let l ← hexVal? c2
      let r ← hexDecodeChars rest
      pure (Char.ofNat (16 * h + l) :: r)

/-- String-level inverse of `hexEncode`. -/
def hexDecode (s : String) : Option String := (hexDecodeChars s.data).map List.asString

/-- Witness instantiation of the external library interface: the toy hex
cipher, the real flat-mapping serializer, and a deserialization table
sufficient for the concrete inputs used in witnesses. -/
def witnessLibs : VaultLibs :=
  { encrypt := hexEncode
    decrypt := hexDecode
    dumps := dumps_credmap
    loads := fun s =>
      if s = dumps_credmap [("email", "a@b.com"), ("password", "p")] then
        some [("email", "a@b.com"), ("password", "p")]
      else if s = dumps_credmap [("password", "a")] then some [("password", "a")]
      else none }

/-- Library interface whose decryption always fails, modelling a Fernet
cipher under a mismatched master key (every `decrypt` raises `InvalidToken`). -/
def corruptLibs : VaultLibs :=
  { encrypt := hexEncode
    decrypt := fun _ => none
    dumps := dumps_credmap
    loads := fun _ => none }

/-- C3 counterexample: the claim is false as stated.  Storing
`{"password": "a"}` yields an on-disk artifact that does contain a substring
of a credential value in plaintext: the one-character substring "a" of the
value "a" occurs in the artifact text (already inside the fixed JSON key
"platform"), for any cipher whatsoever. -/
theorem c3_substring_counterexample :
    containsSub "a".data "a".data = true ∧
    (lookupFile (store_credentials witnessLibs [] "u2" "instagram" [("password", "a")]
          "2024-01-01T00:00:00").2 ("u2", "instagram")).map
        (fun d => containsSub (dumps_credential_data d).data "a".data) = some true := by
  constructor
  · decide
  · decide

/-- C3 (amended): given the documented round-trip contracts of the external
`json` and Fernet libraries at the stored mapping, `get` after `store`
reproduces the mapping exactly, and the stored artifact depends on the
credentials only through the cipher output in its `credentials` field (all
other fields are the platform name, timestamps and `null`). -/
theorem c3_vault_round_trip
    (libs : VaultLibs) (fs : VaultFiles) (u p : String)
    (C : List (String × String)) (t₁ t₂ : String)
    (hdec : libs.decrypt (libs.encrypt (libs.dumps C)) = some (libs.dumps C))
    (hloads : libs.loads (libs.dumps C) = some C) :
    (get_credentials libs (store_credentials libs fs u p C t₁).2 u p t₂).1 = some C ∧
    lookupFile (store_credentials libs fs u p C t₁).2 (u, p) =
      some { platform := p, credentials := libs.encrypt (libs.dumps C),
             created_at := t₁, updated_at := t₁, last_used := none } := by
  have hlook := lookupFile_writeFile fs (u, p)
    { platform := p, credentials := libs.encrypt (libs.dumps C),
      created_at := t₁, updated_at := t₁, last_used := none }
  refine ⟨?_, hlook⟩
  simp [get_credentials, store_credentials, hlook, hdec, hloads]

/-- Witness for C3 at the spec's own scenario mapping
`{"email": "a@b.com", "password": "p"}`. -/
theorem c3_witness :
    (get_credentials witnessLibs
        (store_credentials witnessLibs [] "u2" "instagram"
          [("email", "a@b.com"), ("password", "p")] "t1").2 "u2" "instagram" "t2").1 =
      some [("email", "a@b.com"), ("password", "p")] ∧
    lookupFile (store_credentials witnessLibs [] "u2" "instagram"
        [("email", "a@b.com"), ("password", "p")] "t1").2 ("u2", "instagram") =
      some { platform := "instagram",
             credentials := witnessLibs.encrypt
               (witnessLibs.dumps [("email", "a@b.com"), ("password", "p")]),
             created_at := "t1", updated_at := "t1", last_used := none } :=
  c3_vault_round_trip witnessLibs [] "u2" "instagram"
    [("email", "a@b.com"), ("password", "p")] "t1" "t2" (by decide) (by decide)

/-- C5 counterexample: a vault record whose decryption fails (key mismatch)
makes `get_credentials` return the very same observable outcome, `None`, as
the not-found case on an empty vault: the two failure modes are not
observably different to the caller. -/
theorem c5_counterexample :
    (get_credentials corruptLibs
        [(("u", "instagram"),
          { platform := "instagram", credentials := "zz", created_at := "t",
            updated_at := "t", last_used := none })] "u" "instagram" "t2").1 = none ∧
    (get_credentials corruptLibs [] "u" "instagram" "t2").1 = none := by
  constructor
  · decide
  · decide

/-- C5 (amended): `get_credentials` returns absent when no record exists, and
it equally returns absent (with the store untouched) when a record exists but
its decryption fails — the cipher error is logged, not surfaced distinctly,
matching the spec's §7 "surfaced as absent" rule rather than §4.1. -/
theorem c5_absent_on_corruption
    (libs : VaultLibs) (fs : VaultFiles) (u p t : String) (d : CredentialData)
    (hfound : lookupFile fs (u, p) = some d)
    (hdec : libs.decrypt d.credentials = none) :
    get_credentials libs fs u p t = (none, fs) ∧
    get_credentials libs [] u p t = (none, []) := by
  constructor
  · simp [get_credentials, hfound, hdec]
  · simp [get_credentials, lookupFile]

/-- Witness for C5 on a concrete corrupted record. -/
theorem c5_witness :
    get_credentials corruptLibs
        [(("u", "instagram"),
          { platform := "instagram", credentials := "zz", created_at := "t",
            updated_at := "t", last_used := none })] "u" "instagram" "t2" =
      (none,
       [(("u", "instagram"),
         { platform := "instagram", credentials := "zz", created_at := "t",
           updated_at := "t", last_used := none })]) ∧
    get_credentials corruptLibs [] "u" "instagram" "t2" = (none, []) :=
  c5_absent_on_corruption corruptLibs
    [(("u", "instagram"),
      { platform := "instagram", credentials := "zz", created_at := "t",
        updated_at := "t", last_used := none })] "u" "instagram" "t2"
    { platform := "instagram", credentials := "zz", created_at := "t",
      updated_at := "t", last_used := none } (by decide) rfl

/-! ## Vault key management (`_init_encryption_key`) -/

/-- The `key_info.json` content written on first initialization — note the
`master_password` field is the cleartext master password. -/
structure KeyInfoData where
  salt : String
  master_password : String
  created_at : String
deriving DecidableEq, Repr

/-- The two key-management artifacts in `data/credential_vault`. -/
structure VaultKeyFiles where
  masterKey : Option String
  keyInfo : Option KeyInfoData
deriving DecidableEq, Repr

/-- `CredentialVaultService._init_encryption_key` (lines 37-69).  The
`PBKDF2HMAC(SHA256, length=32, iterations=100000).derive` primitive is
external and enters abstractly as `kdf`; `salt` (`os.urandom(16)`) and
`master_password` (`secrets.token_hex(32)`) are the randomness inputs. -/
def init_encryption_key (kdf : List Nat → String → List Nat)
    (salt : List Nat) (master_password : String) (now : String)
    (fs : VaultKeyFiles) : String × VaultKeyFiles :=
  match fs.masterKey with
  | some key => (key, fs)
  | none =>
      let key := (b64EncodeWith urlsafeAlphabet (kdf salt master_password)).asString
      (key,
       { masterKey := some key,
         keyInfo := some { salt := (b64EncodeWith stdAlphabet salt).asString,
                           master_password := master_password, created_at := now } })

/-- C10: on first initialization the vault derives the Fernet key by URL-safe
base64 of the KDF output, writes it to `master.key`, and writes the cleartext
master password plus base64 salt to `key_info.json`; whenever `master.key`
already exists its content is returned unchanged with no writes, so a second
initialization after the first — with any fresh randomness — yields the same
key. -/
theorem c10_key_persistence
    (kdf kdf₂ : List Nat → String → List Nat) (salt salt₂ : List Nat)
    (pw pw₂ now now₂ : String) (fs fs₂ : VaultKeyFiles) (k : String)
    (hfresh : fs.masterKey = none) (hk : fs₂.masterKey = some k) :
    init_encryption_key kdf salt pw now fs =
      ((b64EncodeWith urlsafeAlphabet (kdf salt pw)).asString,
       { masterKey := some ((b64EncodeWith urlsafeAlphabet (kdf salt pw)).asString),
         keyInfo := some { salt := (b64EncodeWith stdAlphabet salt).asString,
                           master_password := pw, created_at := now } }) ∧
    init_encryption_key kdf₂ salt₂ pw₂ now₂ fs₂ = (k, fs₂) ∧
    (init_encryption_key kdf₂ salt₂ pw₂ now₂ (init_encryption_key kdf salt pw now fs).2).1 =
      (init_encryption_key kdf salt pw now fs).1 := by
  refine ⟨?_, ?_, ?_⟩
  · simp [init_encryption_key, hfresh]
  · simp [init_encryption_key, hk]
  · simp [init_encryption_key, hfresh]

/-- Witness for C10 with a concrete KDF and randomness. -/
theorem c10_witness :
    init_encryption_key (fun s pw => s ++ [pw.length]) [1, 2] "mp" "t0" ⟨none, none⟩ =
      ((b64EncodeWith urlsafeAlphabet ((fun (s : List Nat) (pw : String) =>
          s ++ [pw.length]) [1, 2] "mp")).asString,
       { masterKey := some ((b64EncodeWith urlsafeAlphabet ((fun (s : List Nat)
             (pw : String) => s ++ [pw.length]) [1, 2] "mp")).asString),
         keyInfo := some { salt := (b64EncodeWith stdAlphabet [1, 2]).asString,
                           master_password := "mp", created_at := "t0" } }) ∧
    init_encryption_key (fun s pw => s ++ [pw.length]) [3, 4] "other" "t1"
        ⟨some "KEY", none⟩ = ("KEY", ⟨some "KEY", none⟩) ∧
    (init_encryption_key (fun s pw => s ++ [pw.length]) [3, 4] "other" "t1"
        (init_encryption_key (fun s pw => s ++ [pw.length]) [1, 2] "mp" "t0"
          ⟨none, none⟩).2).1 =
      (init_encryption_key (fun s pw => s ++ [pw.length]) [1, 2] "mp" "t0"
        ⟨none, none⟩).1 :=
  c10_key_persistence (fun s pw => s ++ [pw.length]) (fun s pw => s ++ [pw.length])
    [1, 2] [3, 4] "mp" "other" "t0" "t1" ⟨none, none⟩ ⟨some "KEY", none⟩ "KEY" rfl rfl

/-! ## Collection dispatcher (`oauth_data_collector.py`)

Documents carry the fields the dispatcher logic reads; remaining optional
model fields (media, engagement numbers, raw payloads, ...) do not influence
the persistence control flow and are elided.  An item arrives at
`_save_collected_data` as a dict; `CollectedPost(**post_data)` is pydantic
validation, an external library call whose outcome enters as
`Option` (`none` = `ValidationError`, caught and logged by the save loop). -/

/-- A `CollectedPost` document; natural key `(platform, platform_post_id)`. -/
structure CollectedPost where
  user_id : String
  social_account_id : String
  platform : PlatformType
  platform_post_id : String
  content : String
  post_url : String
deriving DecidableEq, Repr

/-- A `CollectedConnection` document. -/
structure CollectedConnection where
  user_id : String
  social_account_id : String
  platform : PlatformType
  connection_type : String
  platform_user_id : String
deriving DecidableEq, Repr

/-- A `CollectedInteraction` document. -/
structure CollectedInteraction where
  user_id : String
  social_account_id : String
  platform : PlatformType
  interaction_type : String
  target_id : String
deriving DecidableEq, Repr

/-- A `SearchHistory` document. -/
structure SearchHistory where
  user_id : String
  social_account_id : String
  platform : PlatformType
  search_query : String
deriving DecidableEq, Repr

/-- The four persistent collections the dispatcher writes to. -/
structure CollectionsDB where
  collected_posts : List CollectedPost
  collected_connections : List CollectedConnection
  collected_interactions : List CollectedInteraction
  search_histories : List SearchHistory
deriving DecidableEq, Repr

/-- The `collected_data` dict shape (also the per-account dict returned by
`_collect_from_platform`): four category lists of validation outcomes. -/
structure AccountData where
  posts : List (Option CollectedPost)
  connections : List (Option CollectedConnection)
  interactions : List (Option CollectedInteraction)
  search_histories : List (Option SearchHistory)
deriving DecidableEq, Repr

/-- The `saved_counts` dict returned by `_save_collected_data`. -/
structure SavedCounts where
  posts_saved : Nat
  connections_saved : Nat
  interactions_saved : Nat
  search_histories_saved : Nat
deriving DecidableEq, Repr

/-- One category loop of `_save_collected_data` (lines 113-121): construct,
save, count; a validation/save exception is logged and the item skipped.
There is no existence check before the insert. -/
def saveItems {α : Type} : List α → List (Option α) → List α × Nat
  | store, [] => (store, 0)
  | store, it :: rest =>
    match it with
    | none => saveItems store rest
    | some d =>
      let r := saveItems (store ++ [d]) rest
      (r.1, r.2 + 1)

/-- `OAuthDataCollector._save_collected_data` (lines 104-149). -/
def save_collected_data (db : CollectionsDB) (cd : AccountData) :
    CollectionsDB × SavedCounts :=
  let ps := saveItems db.collected_posts cd.posts
  let cs := saveItems db.collected_connections cd.connections
  let its := saveItems db.collected_interactions cd.interactions
  let ss := saveItems db.search_histories cd.search_histories
  ({ collected_posts := ps.1, collected_connections := cs.1,
     collected_interactions := its.1, search_histories := ss.1 },
   { posts_saved := ps.2, connections_saved := cs.2, interactions_saved := its.2,
     search_histories_saved := ss.2 })

theorem saveItems_spec {α : Type} : ∀ (items : List (Option α)) (store : List α),
    saveItems store items = (store ++ items.filterMap id, (items.filterMap id).length)
  | [], store => by simp [saveItems]
  | none :: rest, store => by
    rw [saveItems]
    simpa using saveItems_spec rest store
  | some d :: rest, store => by
    rw [saveItems]
    have ih := saveItems_spec rest (store ++ [d])
    simp [ih]

/-- A concrete normalized record for the C2 counterexample. -/
def c2Post : CollectedPost :=
  { user_id := "u1", social_account_id := "sa1", platform := .reddit,
    platform_post_id := "abc", content := "hello", post_url := "https://reddit.com/abc" }

/-- C2 counterexample: the dispatcher performs no existence check before
insert.  Feeding the same normalized record (platform `reddit`, native id
`"abc"`) twice in one run persists two records with that natural key, and a
later run adds a third — the claim's "exactly one persisted record" is
false. -/
theorem c2_counterexample :
    (save_collected_data ⟨[], [], [], []⟩
        ⟨[some c2Post, some c2Post], [], [], []⟩).1.collected_posts.countP
      (fun x => x.platform == c2Post.platform &&
        x.platform_post_id == c2Post.platform_post_id) = 2 ∧
    ((save_collected_data
        (save_collected_data ⟨[], [], [], []⟩
          ⟨[some c2Post, some c2Post], [], [], []⟩).1
        ⟨[some c2Post], [], [], []⟩).1.collected_posts.countP
      (fun x => x.platform == c2Post.platform &&
        x.platform_post_id == c2Post.platform_post_id)) = 3 := by
  constructor
  · decide
  · decide

/-- C2 (amended): `_save_collected_data` inserts every successfully validated
item unconditionally — the persisted collection after a run is exactly the
previous collection extended by all validated items, duplicates included, and
the reported count is the number of validated items; the natural-key
check-then-skip exists in the mock dispatcher (`collectors/data_collector.py`)
but not in this OAuth dispatcher. -/
theorem c2_no_dedup_insert (db : CollectionsDB) (cd : AccountData) :
    (save_collected_data db cd).1.collected_posts =
      db.collected_posts ++ cd.posts.filterMap id ∧
    (save_collected_data db cd).2.posts_saved = (cd.posts.filterMap id).length ∧
    (save_collected_data db cd).1.collected_connections =
      db.collected_connections ++ cd.connections.filterMap id ∧
    (save_collected_data db cd).2.connections_saved =
      (cd.connections.filterMap id).length := by
  refine ⟨?_, ?_, ?_, ?_⟩ <;>
    simp [save_collected_data, saveItems_spec]

/-- A `SocialAccount` document with the fields the dispatcher and the
disconnect endpoint read; the remaining profile/token metadata fields do not
influence this control flow and are elided. -/
structure SocialAccount where
  user_id : String
  platform : PlatformType
  platform_user_id : String
  username : String
  access_token : String
  is_active : Bool
  last_sync : Option Nat
deriving DecidableEq, Repr

/-- The per-platform tallies kept in `platform_results`. -/
structure Counts where
  posts : Nat
  connections : Nat
  interactions : Nat
  search_histories : Nat
deriving DecidableEq, Repr

/-- Category lengths of one account's collected data (the four
`len(account_data.get(..., []))` increments). -/
def countsOf (d : AccountData) : Counts :=
  ⟨d.posts.length, d.connections.length, d.interactions.length, d.search_histories.length⟩

/-- Pointwise sum of tallies. -/
def addCounts (a b : Counts) : Counts :=
  ⟨a.posts + b.posts, a.connections + b.connections, a.interactions + b.interactions,
   a.search_histories + b.search_histories⟩

/-- The `platform_results` dict update: initialize the platform's entry to
zeros if absent, then add this account's category lengths (insertion-ordered
dict, modelled as an association list). -/
def bumpPlatform : List (String × Counts) → String → Counts → List (String × Counts)
  | [], p, c => [(p, c)]
  | (q, c0) :: rest, p, c =>
      if q == p then (q, addCounts c0 c) :: rest else (q, c0) :: bumpPlatform rest p c

/-- The `for account in accounts` loop of `collect_data_for_user`
(lines 52-79): each account's collection runs inside `try/except`; an
exception is logged and the loop continues with the next account; on success
the collected lists are extended, the platform tallies bumped, and the
account saved with a fresh `last_sync`. -/
def collectLoop (collect : SocialAccount → Except String AccountData) (now : Nat) :
    List SocialAccount → AccountData → List (String × Counts) → List SocialAccount →
    AccountData × List (String × Counts) × List SocialAccount
  | [], cd, prs, saved => (cd, prs, saved)
  | a :: rest, cd, prs, saved =>
    match collect a with
    | .error _ => collectLoop collect now rest cd prs saved
    | .ok d =>
        collectLoop collect now rest
          { posts := cd.posts ++ d.posts, connections := cd.connections ++ d.connections,
            interactions := cd.interactions ++ d.interactions,
            search_histories := cd.search_histories ++ d.search_histories }
          (bumpPlatform prs a.platform.value (countsOf d))
          (saved ++ [{ a with last_sync := some now }])

/-- The facebook all-zero warning block (lines 85-91), keeping the message
text's first sentence. -/
def facebookWarnings (prs : List (String × Counts)) : List String :=
  prs.foldl (fun ws pc =>
    if pc.1 == "facebook" && pc.2.posts == 0 && pc.2.connections == 0 &&
        pc.2.interactions == 0 && pc.2.search_histories == 0
    then ws ++ ["No Facebook data was collected."]
    else ws) []

/-- The aggregate result dict of `collect_data_for_user`; an absent
`warnings` key is the empty list. -/
structure DispatchResult where
  accounts_processed : Nat
  posts_saved : Nat
  connections_saved : Nat
  interactions_saved : Nat
  search_histories_saved : Nat
  platform_results : List (String × Counts)
  warnings : List String
deriving DecidableEq, Repr

/-- `OAuthDataCollector.collect_data_for_user` (lines 30-102): find the
user's active accounts, run the per-account loop with per-account fault
isolation, persist everything through `_save_collected_data`, and aggregate.
The per-platform collection itself (`_collect_from_platform`, a network
call chain) enters abstractly as `collect`.  Returns the result dict, the
updated collections, and the re-saved accounts. -/
def collect_data_for_user (collect : SocialAccount → Except String AccountData)
    (accountsDB : List SocialAccount) (db : CollectionsDB) (user_id : String) (now : Nat) :
    DispatchResult × CollectionsDB × List SocialAccount :=
  let accounts := accountsDB.filter (fun a => a.user_id == user_id && a.is_active == true)
  let loopRes := collectLoop collect now accounts ⟨[], [], [], []⟩ [] []
  let saved := save_collected_data db loopRes.1
  ({ accounts_processed := accounts.length,
     posts_saved := saved.2.posts_saved,
     connections_saved := saved.2.connections_saved,
     interactions_saved := saved.2.interactions_saved,
     search_histories_saved := saved.2.search_histories_saved,
     platform_results := loopRes.2.1,
     warnings := facebookWarnings loopRes.2.1 },
   saved.1, loopRes.2.2)

theorem PlatformType.value_inj : ∀ p q : PlatformType, p.value = q.value → p = q := by
  intro p q h
  cases p <;> cases q <;> first
    | rfl
    | exact absurd h (by decide)

/-- Concrete accounts for the C6 scenario: three active platforms. -/
def c6A1 : SocialAccount :=
  { user_id := "u1", platform := .facebook, platform_user_id := "f1", username := "fb",
    access_token := "t1", is_active := true, last_sync := none }

/-- Second C6 account (its collector will throw). -/
def c6A2 : SocialAccount :=
  { user_id := "u1", platform := .instagram, platform_user_id := "i1", username := "ig",
    access_token := "t2", is_active := true, last_sync := none }

/-- Third C6 account. -/
def c6A3 : SocialAccount :=
  { user_id := "u1", platform := .reddit, platform_user_id := "r1", username := "rd",
    access_token := "t3", is_active := true, last_sync := none }

/-- The C6 account store. -/
def c6Accounts : List SocialAccount := [c6A1, c6A2, c6A3]

/-- One facebook post returned in the C6 scenario. -/
def c6FbPost : CollectedPost :=
  { user_id := "u1", social_account_id := "sa1", platform := .facebook,
    platform_post_id := "fb1", content := "f", post_url := "uf" }

/-- One reddit post returned in the C6 scenario. -/
def c6RdPost : CollectedPost :=
  { user_id := "u1", social_account_id := "sa3", platform := .reddit,
    platform_post_id := "rd1", content := "r", post_url := "ur" }

/-- Concrete collector outcomes for the C6 scenario: the instagram collector
throws, the other two return one post each. -/
def c6Collect (a : SocialAccount) : Except String AccountData :=
  match a.platform with
  | .instagram => .error "API error"
  | .facebook => .ok ⟨[some c6FbPost], [], [], []⟩
  | _ => .ok ⟨[some c6RdPost], [], [], []⟩

/-- C6 counterexample: in the three-platform run where the instagram
collector throws, the aggregate does report the other two platforms' counts,
but it contains no entry and no warning of any kind for the failing
platform — `platform_results` lists only facebook and reddit and `warnings`
is empty, so no non-success indicator for instagram is reported, contrary to
the claim's wording. -/
theorem c6_counterexample :
    (collect_data_for_user c6Collect c6Accounts ⟨[], [], [], []⟩ "u1" 5).1.platform_results =
      [("facebook", ⟨1, 0, 0, 0⟩), ("reddit", ⟨1, 0, 0, 0⟩)] ∧
    (collect_data_for_user c6Collect c6Accounts ⟨[], [], [], []⟩ "u1" 5).1.warnings = [] ∧
    (collect_data_for_user c6Collect c6Accounts ⟨[], [], [], []⟩ "u1" 5).1.accounts_processed
      = 3 := by
  refine ⟨?_, ?_, ?_⟩ <;> decide

/-- C6 (amended): an exception from one platform's collection does not abort
the remaining accounts: with three active accounts on distinct platforms
where the middle collector throws, the aggregate reports all three accounts
processed, the successful platforms' counts in order, and the saved totals
from the two successful platforms' items — while the failing platform is
merely omitted from `platform_results` (no explicit non-success indicator). -/
theorem c6_partial_failure_isolation
    (collect : SocialAccount → Except String AccountData)
    (accountsDB : List SocialAccount) (db : CollectionsDB) (user_id : String) (now : Nat)
    (a1 a2 a3 : SocialAccount) (d1 d3 : AccountData) (e : String)
    (hacc : accountsDB.filter (fun a => a.user_id == user_id && a.is_active == true)
      = [a1, a2, a3])
    (h1 : collect a1 = .ok d1) (h2 : collect a2 = .error e) (h3 : collect a3 = .ok d3)
    (hp13 : a1.platform ≠ a3.platform) :
    (collect_data_for_user collect accountsDB db user_id now).1.platform_results =
      [(a1.platform.value, countsOf d1), (a3.platform.value, countsOf d3)] ∧
    (collect_data_for_user collect accountsDB db user_id now).1.accounts_processed = 3 ∧
    (collect_data_for_user collect accountsDB db user_id now).1.posts_saved =
      ((d1.posts ++ d3.posts).filterMap id).length ∧
    (collect_data_for_user collect accountsDB db user_id now).2.2 =
      [{ a1 with last_sync := some now }, { a3 with last_sync := some now }] := by
  have hv13 : (a1.platform.value == a3.platform.value) = false := by
    simp only [beq_eq_false_iff_ne, ne_eq]
    exact fun h => hp13 (PlatformType.value_inj _ _ h)
  refine ⟨?_, ?_, ?_, ?_⟩ <;>
    simp only [collect_data_for_user, hacc] <;>
    simp [collectLoop, h1, h2, h3, bumpPlatform, hv13, save_collected_data, saveItems_spec]

/-- Witness for C6 at the concrete three-platform scenario. -/
theorem c6_witness :
    (collect_data_for_user c6Collect c6Accounts ⟨[], [], [], []⟩ "u1" 5).1.platform_results =
      [(c6A1.platform.value, countsOf ⟨[some c6FbPost], [], [], []⟩),
       (c6A3.platform.value, countsOf ⟨[some c6RdPost], [], [], []⟩)] ∧
    (collect_data_for_user c6Collect c6Accounts ⟨[], [], [], []⟩ "u1" 5).1.accounts_processed
        = 3 ∧
    (collect_data_for_user c6Collect c6Accounts ⟨[], [], [], []⟩ "u1" 5).1.posts_saved =
      (((AccountData.mk [some c6FbPost] [] [] []).posts ++
        (AccountData.mk [some c6RdPost] [] [] []).posts).filterMap id).length ∧
    (collect_data_for_user c6Collect c6Accounts ⟨[], [], [], []⟩ "u1" 5).2.2 =
      [{ c6A1 with last_sync := some 5 }, { c6A3 with last_sync := some 5 }] :=
  c6_partial_failure_isolation c6Collect c6Accounts ⟨[], [], [], []⟩ "u1" 5
    c6A1 c6A2 c6A3 ⟨[some c6FbPost], [], [], []⟩ ⟨[some c6RdPost], [], [], []⟩ "API error"
    (by decide) rfl rfl rfl (by decide)


/-! ## OAuth callback (`handle_callback`) -/

/-- The success dict returned by `OAuthService.handle_callback`. -/
structure CallbackSuccess where
  account_id : String
  platform : String
  username : Option String
  display_name : Option String
deriving DecidableEq, Repr

/-- `OAuthService.handle_callback` (oauth_service.py lines 97-162): consume
the OAuth state (raising on failure); inside the try block, exchange the code
and fetch the profile and upsert the `SocialAccount` — modelled together by
`runExchange`, whose `Except.error` is any exception there, re-raised as
"Authentication failed"; then trigger data collection for the user inside an
inner `try/except` that logs and swallows any collection exception; finally
return the success dict. -/
def handle_callback (db : List OAuthState) (platform : PlatformType) (state : String)
    (now : Nat)
    (runExchange : VerifyData → Except String (String × Option String × Option String))
    (runCollection : String → Except String DispatchResult) :
    Except String CallbackSuccess × List OAuthState :=
  match verify_oauth_state db state platform now with
  | (none, db') => (.error "Invalid or expired OAuth state", db')
  | (some stored_data, db') =>
    match runExchange stored_data with
    | .error e => (.error ("Authentication failed: " ++ e), db')
    | .ok (account_id, username, display_name) =>
      match runCollection stored_data.user_id with
      | .ok _ => (.ok ⟨account_id, platform.value, username, display_name⟩, db')
      | .error _ => (.ok ⟨account_id, platform.value, username, display_name⟩, db')

/-- C9: when state verification and the exchange/profile/upsert pipeline
succeed, `handle_callback` returns the success payload whatever the
data-collection outcome is: the result is identical under any two collection
behaviours, so a collection exception cannot fail the OAuth flow. -/
theorem c9_collection_failure_isolated
    (db : List OAuthState) (p : PlatformType) (state : String) (now : Nat)
    (runExchange : VerifyData → Except String (String × Option String × Option String))
    (rc₁ rc₂ : String → Except String DispatchResult)
    (vd : VerifyData) (db' : List OAuthState)
    (hver : verify_oauth_state db state p now = (some vd, db'))
    (acc : String) (un dn : Option String)
    (hex : runExchange vd = .ok (acc, un, dn)) :
    handle_callback db p state now runExchange rc₁ =
      (.ok ⟨acc, p.value, un, dn⟩, db') ∧
    handle_callback db p state now runExchange rc₁ =
      handle_callback db p state now runExchange rc₂ := by
  have key : ∀ rc : String → Except String DispatchResult,
      handle_callback db p state now runExchange rc =
        (.ok ⟨acc, p.value, un, dn⟩, db') := by
    intro rc
    cases hrc : rc vd.user_id <;>
      simp [handle_callback, hver, hex, hrc]
  exact ⟨key rc₁, (key rc₁).trans (key rc₂).symm⟩

/-- Witness for C9: a concrete callback whose collection step fails is still
a success, bit-identical to the run whose collection step succeeds. -/
theorem c9_witness :
    handle_callback
        [{ state := "tok9", user_id := "u9", platform := .facebook, code_verifier := none,
           created_at := 0, expires_at := 600, is_used := false }] .facebook "tok9" 1
        (fun _ => .ok ("acc9", some "user9", some "User Nine"))
        (fun _ => .error "collection blew up") =
      (.ok ⟨"acc9", PlatformType.value .facebook, some "user9", some "User Nine"⟩,
       [{ state := "tok9", user_id := "u9", platform := .facebook, code_verifier := none,
          created_at := 0, expires_at := 600, is_used := true }]) ∧
    handle_callback
        [{ state := "tok9", user_id := "u9", platform := .facebook, code_verifier := none,
           created_at := 0, expires_at := 600, is_used := false }] .facebook "tok9" 1
        (fun _ => .ok ("acc9", some "user9", some "User Nine"))
        (fun _ => .error "collection blew up") =
      handle_callback
        [{ state := "tok9", user_id := "u9", platform := .facebook, code_verifier := none,
           created_at := 0, expires_at := 600, is_used := false }] .facebook "tok9" 1
        (fun _ => .ok ("acc9", some "user9", some "User Nine"))
        (fun _ => .ok { accounts_processed := 1, posts_saved := 0, connections_saved := 0,
                        interactions_saved := 0, search_histories_saved := 0,
                        platform_results := [], warnings := [] }) :=
  c9_collection_failure_isolated
    [{ state := "tok9", user_id := "u9", platform := .facebook, code_verifier := none,
       created_at := 0, expires_at := 600, is_used := false }] .facebook "tok9" 1
    (fun _ => .ok ("acc9", some "user9", some "User Nine"))
    (fun _ => .error "collection blew up")
    (fun _ => .ok { accounts_processed := 1, posts_saved := 0, connections_saved := 0,
                    interactions_saved := 0, search_histories_saved := 0,
                    platform_results := [], warnings := [] })
    ⟨"u9", PlatformType.value .facebook, none⟩
    [{ state := "tok9", user_id := "u9", platform := .facebook, code_verifier := none,
       created_at := 0, expires_at := 600, is_used := true }]
    rfl "acc9" (some "user9") (some "User Nine") rfl

/-! ## Disconnect endpoint (`endpoints/oauth.py`) -/

/-- The filter of the `SocialAccount.find_one` query in `disconnect_platform`:
user and platform match. -/
def accountMatches (u : String) (p : PlatformType) (x : SocialAccount) : Bool :=
  x.user_id == u && x.platform == p

/-- `await account.delete()` applied to the document `find_one` returned:
remove the first matching record. -/
def removeFirstAccount : List SocialAccount → String → PlatformType → List SocialAccount
  | [], _, _ => []
  | a :: rest, u, p =>
      if accountMatches u p a then rest
      else a :: removeFirstAccount rest u p

/-- An `HTTPException` as observed by the caller: status code and detail. -/
structure HTTPError where
  status_code : Nat
  detail : String
deriving DecidableEq, Repr

/-- `disconnect_platform` (endpoints/oauth.py lines 98-126).  Inside the
`try` block: map the platform name, construct `PlatformType` (a `ValueError`
on an unknown name), `find_one` the user's account, raise
`HTTPException(404)` when none, else `await account.delete()` and return the
success message.  The endpoint's own `except Exception` catches every one of
those raises — `HTTPException` included — and re-raises
`HTTPException(500, "Failed to disconnect {platform}")`, so the caller
observes a generic 500 for the missing-account and bad-platform cases, never
the inner 404.  The collected-data collections are not touched. -/
def disconnect_platform (accounts : List SocialAccount) (collected : CollectionsDB)
    (user_id platform : String) :
    Except HTTPError String × List SocialAccount × CollectionsDB :=
  match PlatformType.ofString? (dbPlatformName platform) with
  | none =>
      (.error { status_code := 500, detail := "Failed to disconnect " ++ platform },
       accounts, collected)
  | some p =>
    match accounts.find? (accountMatches user_id p) with
    | none =>
        (.error { status_code := 500, detail := "Failed to disconnect " ++ platform },
         accounts, collected)
    | some _ =>
        (.ok ("Successfully disconnected " ++ platform ++ " account"),
         removeFirstAccount accounts user_id p, collected)

theorem find?_removeFirstAccount_split (u : String) (p : PlatformType) :
    ∀ (accounts : List SocialAccount) (a : SocialAccount),
      accounts.find? (accountMatches u p) = some a →
      ∃ l₁ l₂, accounts = l₁ ++ a :: l₂ ∧ removeFirstAccount accounts u p = l₁ ++ l₂
  | [], a, h => by simp at h
  | b :: rest, a, h => by
    by_cases hb : accountMatches u p b = true
    · have hab : b = a := by
        rw [List.find?_cons_of_pos _ hb] at h
        exact Option.some.inj h
      subst hab
      exact ⟨[], rest, rfl, by simp [removeFirstAccount, hb]⟩
    · have hfr : rest.find? (accountMatches u p) = some a := by
        rwa [List.find?_cons_of_neg _ hb] at h
      obtain ⟨l₁, l₂, hacc, hrem⟩ := find?_removeFirstAccount_split u p rest a hfr
      have hb' : accountMatches u p b = false := by simpa using hb
      exact ⟨b :: l₁, l₂, by rw [List.cons_append, ← hacc],
        by simp [removeFirstAccount, hb', hrem]⟩

/-- A concrete linked account for the C4 counterexample. -/
def c4Account : SocialAccount :=
  { user_id := "u1", platform := .twitter, platform_user_id := "tw1", username := "alice",
    access_token := "tok", is_active := true, last_sync := none }

/-- A concrete collected store for the C4 counterexample. -/
def c4DB : CollectionsDB := ⟨[c2Post], [], [], []⟩

/-- C4 counterexample: after disconnecting the only linked account, the
`SocialAccount` record no longer exists at all — the store is empty, so no
record with `is_active = false` remains, contrary to the claim's
soft-disable; the collected data records are retained. -/
theorem c4_counterexample :
    (disconnect_platform [c4Account] c4DB "u1" "twitter").1 =
      .ok "Successfully disconnected twitter account" ∧
    (disconnect_platform [c4Account] c4DB "u1" "twitter").2.1 = [] ∧
    (disconnect_platform [c4Account] c4DB "u1" "twitter").2.2 = c4DB := by
  refine ⟨rfl, by decide, by decide⟩

/-- C4 (amended): disconnect hard-deletes the account: when a matching
`SocialAccount` exists for the (valid) platform, the endpoint removes that
document from the store — it does not set `is_active := false` — reports
success, and leaves the collected-data collections untouched. -/
theorem c4_disconnect_hard_delete
    (accounts : List SocialAccount) (collected : CollectionsDB)
    (u platform : String) (p : PlatformType) (a : SocialAccount)
    (hplat : PlatformType.ofString? (dbPlatformName platform) = some p)
    (hfind : accounts.find? (accountMatches u p) = some a) :
    (disconnect_platform accounts collected u platform).1 =
      .ok ("Successfully disconnected " ++ platform ++ " account") ∧
    (∃ l₁ l₂, accounts = l₁ ++ a :: l₂ ∧
      (disconnect_platform accounts collected u platform).2.1 = l₁ ++ l₂) ∧
    (disconnect_platform accounts collected u platform).2.2 = collected := by
  obtain ⟨l₁, l₂, hacc, hrem⟩ := find?_removeFirstAccount_split u p accounts a hfind
  refine ⟨?_, ⟨l₁, l₂, hacc, ?_⟩, ?_⟩ <;>
    simp [disconnect_platform, hplat, hfind, hrem]

/-- Witness for C4 at the concrete single-account store. -/
theorem c4_witness :
    (disconnect_platform [c4Account] c4DB "u1" "twitter").1 =
      .ok ("Successfully disconnected " ++ "twitter" ++ " account") ∧
    (∃ l₁ l₂, [c4Account] = l₁ ++ c4Account :: l₂ ∧
      (disconnect_platform [c4Account] c4DB "u1" "twitter").2.1 = l₁ ++ l₂) ∧
    (disconnect_platform [c4Account] c4DB "u1" "twitter").2.2 = c4DB :=
  c4_disconnect_hard_delete [c4Account] c4DB "u1" "twitter" .twitter c4Account
    (by decide) (by decide)

end DataScraping
